import Mathlib

/-!
Shallow embedding of the `cancelreader` package: the Linux epoll backend
(`epollCancelReader`) and the Windows overlapped backend (`winCancelReader`),
together with the factory's backend selection. Each Go function is embedded as
a pure Lean function; the outcomes of the OS calls it performs (epoll waits,
pipe reads and writes, Win32 waits, overlapped reads) are supplied as explicit
environment values, and the observable effects (which objects were created,
closed, whether the real read was issued, the state of the single-slot
rendezvous channel) are returned as explicit result fields.
-/

namespace CancelReader

/-- An OS error code: an errno value on Linux, a Win32 error code on Windows. -/
abbrev SysErr := Nat

/-- The errno value of `unix.EINTR`. -/
def EINTR : SysErr := 4

/-- The Win32 code `ERROR_IO_PENDING` that an overlapped `ReadFile` reports
when the read was successfully queued but has not completed yet. -/
def ERROR_IO_PENDING : SysErr := 997

/-- Go error values as this package produces them: the `ErrCanceled` sentinel,
a plain `fmt.Errorf` message, a `fmt.Errorf` message wrapping an inner error
(`%w`), and a raw OS error. -/
inductive Err where
  | canceled : Err
  | errorf : String → Err
  | wrapped : String → Err → Err
  | sys : SysErr → Err
deriving DecidableEq, Repr

/-- The matching test of `errors.Is`: an error matches the target if it equals
it or wraps an error that matches it. -/
def Err.is : Err → Err → Bool
  | .wrapped m inner, target => (Err.wrapped m inner == target) || inner.is target
  | e, target => e == target

/-- Modelled from the spec: the shared `cancelMixin` (the spec's
CancellationFlag) lives in the repository's common file, which is not among
the provided sources; per the spec it is a set-once, read-many, atomically
synchronized boolean that no operation ever resets. -/
structure CancelMixin where
  requested : Bool
deriving DecidableEq, Repr

/-- Setting the flag: idempotent, and nothing ever resets it. -/
def CancelMixin.setCanceled (_ : CancelMixin) : CancelMixin := ⟨true⟩

/-- Reading the flag. -/
def CancelMixin.isCanceled (m : CancelMixin) : Bool := m.requested

/-! ### Linux epoll backend -/

/-- One outcome of a `unix.EpollWait` call: either the syscall failed with an
errno, or it succeeded and reported descriptor `events[0].Fd = fd` as ready. -/
inductive EpollWaitOutcome where
  | fail : SysErr → EpollWaitOutcome
  | ready : Int → EpollWaitOutcome
deriving DecidableEq, Repr

/-- `epollCancelReader.wait`: loop on `unix.EpollWait`, retrying when the
errno is `EINTR`, returning `fmt.Errorf("kevent: %w", err)` on any other
failure; once a descriptor is ready, return nil for the source descriptor,
`ErrCanceled` for the wakeup-pipe descriptor, and `fmt.Errorf("unknown
error")` for anything else. The supplied list gives the successive outcomes of
the `EpollWait` calls; an overall result of `none` means every supplied
outcome was consumed by the retry loop (the wait is still blocked). -/
def epollWaitLoop (fileFd pipeFd : Int) : List EpollWaitOutcome → Option (Option Err)
  | [] => none
  | .fail e :: rest =>
    if e = EINTR then epollWaitLoop fileFd pipeFd rest
    else some (some (.wrapped "kevent" (.sys e)))
  | .ready fd :: _ =>
    if fd = fileFd then some none
    else if fd = pipeFd then some (some .canceled)
    else some (some (.errorf "unknown error"))

/-- Environment of one `epollCancelReader.Read` call: the outcomes of the
epoll waits, the error (if any) of the one-byte drain read on the wakeup
pipe, and the result of the real `file.Read`. -/
structure EpollReadEnv where
  waitOutcomes : List EpollWaitOutcome
  drainErr : Option SysErr
  fileReadN : Nat
  fileReadErr : Option Err
deriving DecidableEq, Repr

/-- Result of one `epollCancelReader.Read` call: byte count, returned error,
whether the real read on the underlying source was issued, and whether the
one-byte drain read on the wakeup pipe was issued. -/
structure EpollReadResult where
  n : Nat
  err : Option Err
  sourceTouched : Bool
  drainAttempted : Bool
deriving DecidableEq, Repr

/-- `epollCancelReader.Read`: fail immediately with `ErrCanceled` when the
flag is set; otherwise wait; on a nil wait result perform the real read; on
`ErrCanceled` from the wait drain one byte from the wakeup pipe, returning a
wrapped "reading cancel signal" error if that drain fails and `ErrCanceled`
otherwise; on any other wait error return it. `none` means the call is still
blocked inside the wait. -/
def epollRead (m : CancelMixin) (fileFd pipeFd : Int) (env : EpollReadEnv) :
    Option EpollReadResult :=
  if m.isCanceled then some ⟨0, some .canceled, false, false⟩
  else
    match epollWaitLoop fileFd pipeFd env.waitOutcomes with
    | none => none
    | some none => some ⟨env.fileReadN, env.fileReadErr, true, false⟩
    | some (some e) =>
      if e.is .canceled then
        match env.drainErr with
        | some re => some ⟨0, some (.wrapped "reading cancel signal" (.sys re)), false, true⟩
        | none => some ⟨0, some e, false, true⟩
      else some ⟨0, some e, false, false⟩

/-- Result of `epollCancelReader.Cancel`: the flag afterwards and the boolean
return value. -/
structure EpollCancelResult where
  flag : CancelMixin
  result : Bool
deriving DecidableEq, Repr

/-- `epollCancelReader.Cancel`: set the flag, write one byte to the wakeup
pipe, and report whether the write succeeded. -/
def epollCancel (m : CancelMixin) (writeErr : Option SysErr) : EpollCancelResult :=
  ⟨m.setCanceled, writeErr.isNone⟩

/-- `errors.Join` on a list of optional errors, modelled as the list of the
non-nil ones; the empty list stands for a nil joined error. -/
def errorsJoin (es : List (Option Err)) : List Err := es.filterMap id

/-- `epollCancelReader.Close`: close the epoll descriptor, the pipe writer and
the pipe reader — each step always attempted — and join the failures. -/
def epollClose (epollErr writerErr readerErr : Option SysErr) : List Err :=
  errorsJoin [
    epollErr.map fun e => Err.wrapped "closing epoll" (.sys e),
    writerErr.map fun e => Err.wrapped "closing cancel signal writer" (.sys e),
    readerErr.map fun e => Err.wrapped "closing cancel signal reader" (.sys e)]

/-- Environment of the Linux `NewReader` on a `File` argument: errors (if any)
of `EpollCreate1`, `os.Pipe`, and the two `EpollCtl` registrations. -/
structure LinuxCtorEnv where
  epollCreateErr : Option SysErr
  pipeErr : Option SysErr
  ctl1Err : Option SysErr
  ctl2Err : Option SysErr
deriving DecidableEq, Repr

/-- Observable outcome of a constructor run: whether a reader was returned,
the error, and which auxiliary objects were created and released. -/
structure CtorResult where
  readerReturned : Bool
  err : Option Err
  epollCreated : Bool
  pipeCreated : Bool
  epollClosed : Bool
  pipeClosed : Bool
deriving DecidableEq, Repr

/-- The Linux `NewReader` on a `File` argument: create the epoll descriptor,
create the wakeup pipe, register the source and the pipe reader; on a pipe
failure close the epoll descriptor; on a registration failure close the epoll
descriptor but not the pipe. -/
def linuxNewReaderFile (env : LinuxCtorEnv) : CtorResult :=
  match env.epollCreateErr with
  | some e => ⟨false, some (.wrapped "create epoll" (.sys e)), false, false, false, false⟩
  | none =>
    match env.pipeErr with
    | some e => ⟨false, some (.sys e), true, false, true, false⟩
    | none =>
      match env.ctl1Err with
      | some _ =>
        ⟨false, some (.errorf "add reader to epoll interest list"), true, true, true, false⟩
      | none =>
        match env.ctl2Err with
        | some _ =>
          ⟨false, some (.errorf "add reader to epoll interest list"), true, true, true, false⟩
        | none => ⟨true, none, true, true, false, false⟩

/-! ### Backend selection -/

/-- The capability of the stream handed to `NewReader`: whether it implements
the `File` interface, and if so which descriptor `Fd()` reports. -/
structure ReaderCap where
  isFile : Bool
  fd : Nat
deriving DecidableEq, Repr

/-- Which backend the factory selects. -/
inductive Backend where
  | descriptor : Backend
  | fallback : Backend
deriving DecidableEq, Repr

/-- The Linux `NewReader`'s selection: the epoll backend exactly when the
stream implements `File`. -/
def linuxSelectBackend (r : ReaderCap) : Backend :=
  if r.isFile then .descriptor else .fallback

/-- The Windows `NewReader`'s selection: the fallback unless the stream
implements `File` and its descriptor equals `os.Stdin.Fd()`. -/
def winSelectBackend (stdinFd : Nat) (r : ReaderCap) : Backend :=
  if !r.isFile || r.fd != stdinFd then .fallback else .descriptor

/-! ### Windows overlapped backend -/

/-- `windows.WAIT_OBJECT_0`. -/
def WAIT_OBJECT_0 : Nat := 0

/-- `windows.WAIT_ABANDONED`. -/
def WAIT_ABANDONED : Nat := 0x80

/-- `windows.WAIT_TIMEOUT`. -/
def WAIT_TIMEOUT : Nat := 0x102

/-- `windows.WAIT_FAILED`. -/
def WAIT_FAILED : Nat := 0xFFFFFFFF

/-- `winCancelReader.wait`: classify the value returned by
`WaitForMultipleObjects` over the two handles (conin, cancel event). Index 1
is the cancel event (`ErrCanceled`), index 0 the console (nil); the abandoned
range, the timeout value and the failure value each yield their message, and
anything else wraps the accompanying error value. -/
def winWait (event : Nat) (errVal : SysErr) : Option Err :=
  if WAIT_OBJECT_0 ≤ event ∧ event < WAIT_OBJECT_0 + 2 then
    if event = WAIT_OBJECT_0 + 1 then some .canceled
    else if event = WAIT_OBJECT_0 then none
    else some (.errorf "unexpected wait object is ready")
  else if WAIT_ABANDONED ≤ event ∧ event < WAIT_ABANDONED + 2 then
    some (.errorf "abandoned")
  else if event = WAIT_TIMEOUT then some (.errorf "timeout")
  else if event = WAIT_FAILED then some (.errorf "failed")
  else some (.wrapped "unexpected error" (.sys errVal))

/-- Environment of one `winCancelReader.readAsync` call: error of the
`CreateEvent` call, error of the overlapped `ReadFile` issue (where
`ERROR_IO_PENDING` is not a failure) and its byte count, and error and byte
count of the `GetOverlappedResult` completion wait. -/
structure ReadAsyncEnv where
  createEventErr : Option SysErr
  readFileErr : Option SysErr
  readFileN : Nat
  overlappedErr : Option SysErr
  overlappedN : Nat
deriving DecidableEq, Repr

/-- Result of one `readAsync` call: occupancy of the single-slot rendezvous
channel `blockingReadSignal` after the call, byte count, returned error, and
whether the overlapped `ReadFile` was issued against the console handle. -/
structure ReadAsyncResult where
  chanAfter : Bool
  n : Nat
  err : Option Err
  readIssued : Bool
deriving DecidableEq, Repr

/-- The tail of `readAsync` after the overlapped read was issued: post the
token into the rendezvous channel (blocking if the slot is occupied, modelled
as `none`), then wait on `GetOverlappedResult`; on its failure return the
count with a nil error, leaving the token in the slot; on success drain the
own token and return the count. -/
def readAsyncAfterIssue (chanFull : Bool) (env : ReadAsyncEnv) : Option ReadAsyncResult :=
  if chanFull then none
  else
    match env.overlappedErr with
    | some _ => some ⟨true, env.overlappedN, none, true⟩
    | none => some ⟨false, env.overlappedN, none, true⟩

/-- `winCancelReader.readAsync`: create the completion event (wrapping a
failure), issue the overlapped `ReadFile` (failing on any error other than
`ERROR_IO_PENDING`), then run the rendezvous-and-completion tail. -/
def readAsync (chanFull : Bool) (env : ReadAsyncEnv) : Option ReadAsyncResult :=
  match env.createEventErr with
  | some e => some ⟨chanFull, 0, some (.wrapped "create event" (.sys e)), false⟩
  | none =>
    match env.readFileErr with
    | some e =>
      if e ≠ ERROR_IO_PENDING then some ⟨chanFull, env.readFileN, some (.sys e), true⟩
      else readAsyncAfterIssue chanFull env
    | none => readAsyncAfterIssue chanFull env

/-- Environment of one `winCancelReader.Read` call: the
`WaitForMultipleObjects` outcome (event value and accompanying error value),
the flag value observed at the second `isCanceled` check (it may have been set
concurrently after the first), the rendezvous-channel occupancy, and the
`readAsync` environment. -/
structure WinReadEnv where
  waitEvent : Nat
  waitErrVal : SysErr
  canceled2 : Bool
  chanFull : Bool
  asyncEnv : ReadAsyncEnv
deriving DecidableEq, Repr

/-- Result of one `winCancelReader.Read` call: byte count, returned error,
whether the overlapped read was issued against the console, and the
rendezvous-channel occupancy after the call. -/
structure WinReadResult where
  n : Nat
  err : Option Err
  readIssued : Bool
  chanAfter : Bool
deriving DecidableEq, Repr

/-- `winCancelReader.Read`: fail immediately with `ErrCanceled` when the flag
is set; otherwise wait on the two handles, surfacing any wait error; check the
flag again; then perform the overlapped read. `none` means the call is still
blocked. -/
def winRead (m : CancelMixin) (env : WinReadEnv) : Option WinReadResult :=
  if m.isCanceled then some ⟨0, some .canceled, false, env.chanFull⟩
  else
    match winWait env.waitEvent env.waitErrVal with
    | some e => some ⟨0, some e, false, env.chanFull⟩
    | none =>
      if env.canceled2 then some ⟨0, some .canceled, false, env.chanFull⟩
      else
        match readAsync env.chanFull env.asyncEnv with
        | none => none
        | some r => some ⟨r.n, r.err, r.readIssued, r.chanAfter⟩

/-- Result of `winCancelReader.Cancel`: the flag afterwards, the boolean
return value, whether `SetEvent` was called on the cancel event, and the
rendezvous-channel occupancy after the call. -/
structure WinCancelResult where
  flag : CancelMixin
  result : Bool
  setEventCalled : Bool
  chanAfter : Bool
deriving DecidableEq, Repr

/-- `winCancelReader.Cancel`: set the flag, then try to post into the
single-slot rendezvous channel against a 100 ms timeout. If the slot is
occupied the post times out: return false without calling `SetEvent`. If the
post succeeds, call `SetEvent`: on its failure return false with the token
left in the slot; on success block until the token is drained from the slot
and return true. -/
def winCancel (m : CancelMixin) (chanFull : Bool) (setEventErr : Option SysErr) :
    WinCancelResult :=
  if chanFull then ⟨m.setCanceled, false, false, true⟩
  else
    match setEventErr with
    | some _ => ⟨m.setCanceled, false, true, true⟩
    | none => ⟨m.setCanceled, true, true, false⟩

/-- `winCancelReader.Close`: close the cancel event handle and the console
handle — each step always attempted — and join the failures. -/
def winClose (eventErr coninErr : Option SysErr) : List Err :=
  errorsJoin [
    eventErr.map fun e => Err.wrapped "closing cancel event handle" (.sys e),
    coninErr.map fun e => Err.wrapped "closing CONIN$" (.sys e)]

/-- Environment of the Windows `NewReader` on the console path: errors (if
any) of the `CreateFile` of CONIN$, of `flushConsoleInputBuffer`, and of
`CreateEvent`. -/
structure WinCtorEnv where
  createFileErr : Option SysErr
  flushErr : Option SysErr
  createEventErr : Option SysErr
deriving DecidableEq, Repr

/-- Observable outcome of the Windows constructor: whether a reader was
returned, the error, and which auxiliary objects were created and released. -/
structure WinCtorResult where
  readerReturned : Bool
  err : Option Err
  coninCreated : Bool
  eventCreated : Bool
  coninClosed : Bool
  eventClosed : Bool
deriving DecidableEq, Repr

/-- The Windows `NewReader` on the console path: open CONIN$ in overlapped
mode, flush the console input buffer, create the cancel event; no failure path
closes an already-created object. -/
def winNewReaderConsole (env : WinCtorEnv) : WinCtorResult :=
  match env.createFileErr with
  | some e =>
    ⟨false, some (.wrapped "open CONIN$ in overlapping mode" (.sys e)),
      false, false, false, false⟩
  | none =>
    match env.flushErr with
    | some e =>
      ⟨false, some (.wrapped "flush console input buffer" (.sys e)),
        true, false, false, false⟩
    | none =>
      match env.createEventErr with
      | some e =>
        ⟨false, some (.wrapped "create stop event" (.sys e)),
          true, false, false, false⟩
      | none => ⟨true, none, true, true, false, false⟩

/-! ### Claim theorems -/

/-- Claim C1: once `Cancel` has returned, the cancellation flag is set — and
no operation ever resets it — and every `Read` started afterwards, in either
descriptor backend, returns 0 bytes and the sentinel `ErrCanceled`
immediately, with no read issued against the underlying source. -/
theorem C1_cancel_then_read_fails_immediately :
    (∀ (m : CancelMixin) (we : Option SysErr), ((epollCancel m we).flag).isCanceled = true) ∧
    (∀ (m : CancelMixin) (c : Bool) (se : Option SysErr),
      ((winCancel m c se).flag).isCanceled = true) ∧
    (∀ (m : CancelMixin) (we : Option SysErr) (fileFd pipeFd : Int) (env : EpollReadEnv),
      epollRead (epollCancel m we).flag fileFd pipeFd env =
        some ⟨0, some .canceled, false, false⟩) ∧
    (∀ (m : CancelMixin) (c : Bool) (se : Option SysErr) (env : WinReadEnv),
      winRead (winCancel m c se).flag env = some ⟨0, some .canceled, false, env.chanFull⟩) := by
  refine ⟨fun m we => rfl, fun m c se => ?_, fun m we f p env => rfl, fun m c se env => ?_⟩
  · cases c <;> cases se <;> rfl
  · cases c <;> cases se <;> rfl

/-- Claim C2 counterexample: the rendezvous slot is free, so the post
succeeds and `SetEvent` is reached, but `SetEvent` fails; `Cancel` then
returns false, refuting the claim that a successful post always ends with
`Cancel` returning true. -/
theorem C2_counterexample :
    (winCancel ⟨false⟩ false (some 5)).setEventCalled = true ∧
    (winCancel ⟨false⟩ false (some 5)).result = false := by decide

/-- Claim C2 (amended): `Cancel` always sets the flag. When the rendezvous
slot is free the post succeeds and `SetEvent` is called: if it succeeds,
Cancel blocks until the token is drained from the slot and returns true; if it
fails, Cancel returns false with the token left in the slot. When the slot is
occupied, the post does not succeed within the ~100 ms bound and Cancel
returns false without calling `SetEvent`. -/
theorem C2_cancel_handshake_amended :
    ∀ m : CancelMixin,
      winCancel m false none = ⟨⟨true⟩, true, true, false⟩ ∧
      (∀ e : SysErr, winCancel m false (some e) = ⟨⟨true⟩, false, true, true⟩) ∧
      (∀ se : Option SysErr, winCancel m true se = ⟨⟨true⟩, false, false, true⟩) := by
  exact fun m => ⟨rfl, fun e => rfl, fun se => rfl⟩

/-- Claim C3: in the POSIX backend's `Read`, once the readiness wait has
returned a ready descriptor, exactly one of three outcomes occurs: the source
descriptor leads to the real read and its result; the wakeup-pipe descriptor
leads to a one-byte drain of the pipe and the `ErrCanceled` sentinel (the
drain is assumed to succeed; its failure is the subject of C10); any other
descriptor yields the internal "unknown error". -/
theorem C3_read_trichotomy (fileFd pipeFd fd : Int) (env : EpollReadEnv) (m : CancelMixin)
    (hm : m.isCanceled = false) (hne : fileFd ≠ pipeFd)
    (hw : env.waitOutcomes = [.ready fd]) (hd : env.drainErr = none) :
    (fd = fileFd → epollRead m fileFd pipeFd env =
      some ⟨env.fileReadN, env.fileReadErr, true, false⟩) ∧
    (fd = pipeFd → epollRead m fileFd pipeFd env =
      some ⟨0, some .canceled, false, true⟩) ∧
    (fd ≠ fileFd → fd ≠ pipeFd → epollRead m fileFd pipeFd env =
      some ⟨0, some (.errorf "unknown error"), false, false⟩) := by
  refine ⟨?_, ?_, ?_⟩
  · intro h
    subst h
    simp [epollRead, hm, hw, epollWaitLoop]
  · intro h
    subst h
    simp [epollRead, hm, hw, hd, epollWaitLoop, Ne.symm hne, Err.is]
  · intro h1 h2
    simp [epollRead, hm, hw, hd, epollWaitLoop, h1, h2, Err.is]

/-- Claim C3 witness: with the wakeup pipe (descriptor 5) reported ready and a
successful drain, `Read` returns 0 bytes and the cancellation sentinel. -/
theorem C3_witness :
    epollRead ⟨false⟩ 3 5 ⟨[.ready 5], none, 7, none⟩ =
      some ⟨0, some .canceled, false, true⟩ :=
  (C3_read_trichotomy 3 5 5 ⟨[.ready 5], none, 7, none⟩ ⟨false⟩ rfl
    (by decide) rfl rfl).2.1 rfl

/-- Claim C6: the factory selects the descriptor backend iff the stream
implements `File` (Linux), respectively iff it implements `File` and its
descriptor equals the standard-input descriptor (Windows); in every other
case it selects the fallback backend. -/
theorem C6_backend_selection :
    (∀ r : ReaderCap, (linuxSelectBackend r = .descriptor ↔ r.isFile = true) ∧
      (linuxSelectBackend r = .fallback ↔ r.isFile = false)) ∧
    (∀ (stdinFd : Nat) (r : ReaderCap),
      (winSelectBackend stdinFd r = .descriptor ↔ r.isFile = true ∧ r.fd = stdinFd) ∧
      (winSelectBackend stdinFd r = .fallback ↔ r.isFile = false ∨ r.fd ≠ stdinFd)) := by
  constructor
  · rintro ⟨f, fd⟩
    cases f <;> simp [linuxSelectBackend]
  · rintro s ⟨f, fd⟩
    by_cases h : fd = s <;> cases f <;> simp [winSelectBackend, h]

/-- Claim C7: `Close` attempts every release step independently of earlier
failures — the joined result is exactly the concatenation of each step's own
contribution — and is nil exactly when every step succeeded. -/
theorem C7_close_aggregates_all_steps :
    (∀ e1 e2 e3 : Option SysErr,
      epollClose e1 e2 e3 =
        (e1.map fun e => Err.wrapped "closing epoll" (.sys e)).toList ++
        (e2.map fun e => Err.wrapped "closing cancel signal writer" (.sys e)).toList ++
        (e3.map fun e => Err.wrapped "closing cancel signal reader" (.sys e)).toList ∧
      (epollClose e1 e2 e3 = [] ↔ e1 = none ∧ e2 = none ∧ e3 = none)) ∧
    (∀ e1 e2 : Option SysErr,
      winClose e1 e2 =
        (e1.map fun e => Err.wrapped "closing cancel event handle" (.sys e)).toList ++
        (e2.map fun e => Err.wrapped "closing CONIN$" (.sys e)).toList ∧
      (winClose e1 e2 = [] ↔ e1 = none ∧ e2 = none)) := by
  constructor
  · intro e1 e2 e3
    cases e1 <;> cases e2 <;> cases e3 <;> simp [epollClose, errorsJoin]
  · intro e1 e2
    cases e1 <;> cases e2 <;> simp [winClose, errorsJoin]

/-- Claim C4 counterexample: with event creation and the overlapped issue
succeeding, the read-completion wait `GetOverlappedResult` fails (here with
code 5), yet `readAsync` returns the transferred count with a nil error — the
failure is not surfaced to the caller. -/
theorem C4_counterexample :
    ((readAsync false ⟨none, none, 0, some 5, 3⟩).map fun r => r.err) = some none := by
  decide

/-- Claim C4 (amended): every unexpected outcome of a readiness wait — an
unknown ready descriptor (epoll), an abandoned wait, a timeout on an infinite
wait, a wait failure and any other unexpected value (Windows) — is surfaced as
a non-nil error to the caller of `Read`; a failure of the overlapped
read-completion wait `GetOverlappedResult`, however, is not surfaced:
`readAsync` then returns the count with a nil error. -/
theorem C4_wait_errors_surfaced_amended :
    (∀ fileFd pipeFd fd : Int, fd ≠ fileFd → fd ≠ pipeFd →
      epollWaitLoop fileFd pipeFd [.ready fd] = some (some (.errorf "unknown error"))) ∧
    (∀ e : SysErr,
      winWait WAIT_ABANDONED e = some (.errorf "abandoned") ∧
      winWait (WAIT_ABANDONED + 1) e = some (.errorf "abandoned") ∧
      winWait WAIT_TIMEOUT e = some (.errorf "timeout") ∧
      winWait WAIT_FAILED e = some (.errorf "failed") ∧
      winWait 7 e = some (.wrapped "unexpected error" (.sys e))) ∧
    (∀ env : ReadAsyncEnv, env.createEventErr = none →
      (env.readFileErr = none ∨ env.readFileErr = some ERROR_IO_PENDING) →
      env.overlappedErr.isSome = true →
      ((readAsync false env).map fun r => r.err) = some none) := by
  refine ⟨?_, ?_, ?_⟩
  · intro fileFd pipeFd fd h1 h2
    simp [epollWaitLoop, h1, h2]
  · intro e
    refine ⟨rfl, rfl, rfl, rfl, rfl⟩
  · rintro ⟨ce, rf, n1, ov, n2⟩ hce hrf hov
    simp only at hce hov
    subst hce
    obtain ⟨v, hv⟩ := Option.isSome_iff_exists.mp hov
    subst hv
    rcases hrf with h | h <;> simp only at h <;> subst h <;>
      simp [readAsync, readAsyncAfterIssue, ERROR_IO_PENDING]

/-- Claim C4 witness: an unknown epoll descriptor yields the internal error,
and a failing `GetOverlappedResult` after a pending issue yields a nil error
from `readAsync`. -/
theorem C4_witness :
    epollWaitLoop 3 5 [.ready 9] = some (some (.errorf "unknown error")) ∧
    ((readAsync false ⟨none, some ERROR_IO_PENDING, 0, some 6, 2⟩).map fun r => r.err) =
      some none :=
  ⟨C4_wait_errors_surfaced_amended.1 3 5 9 (by decide) (by decide),
   C4_wait_errors_surfaced_amended.2.2 ⟨none, some ERROR_IO_PENDING, 0, some 6, 2⟩ rfl
     (Or.inr rfl) rfl⟩

/-- Claim C5 counterexample: when registering the source descriptor with epoll
fails (after the epoll descriptor and the wakeup pipe were both created), the
constructor returns an error but the wakeup pipe is not released. -/
theorem C5_counterexample :
    (linuxNewReaderFile ⟨none, none, some 9, none⟩).err.isSome = true ∧
    (linuxNewReaderFile ⟨none, none, some 9, none⟩).pipeCreated = true ∧
    (linuxNewReaderFile ⟨none, none, some 9, none⟩).pipeClosed = false := by decide

/-- Claim C5 (amended): when construction fails, no partial reader is returned
and a non-nil error is returned; the epoll descriptor is closed on every
failure path after its creation, but the wakeup pipe is not released when
descriptor registration fails, and on Windows neither the overlapped console
handle nor anything else is released when the console-buffer flush or the
event creation fails. -/
theorem C5_construction_rollback_amended :
    (∀ env : LinuxCtorEnv, (linuxNewReaderFile env).err.isSome = true →
      (linuxNewReaderFile env).readerReturned = false ∧
      ((linuxNewReaderFile env).epollCreated = true →
        (linuxNewReaderFile env).epollClosed = true) ∧
      (linuxNewReaderFile env).pipeClosed = false) ∧
    (∀ env : WinCtorEnv, (winNewReaderConsole env).err.isSome = true →
      (winNewReaderConsole env).readerReturned = false ∧
      (winNewReaderConsole env).coninClosed = false ∧
      (winNewReaderConsole env).eventClosed = false) := by
  constructor
  · rintro ⟨e1, e2, e3, e4⟩ h
    cases e1 <;> cases e2 <;> cases e3 <;> cases e4 <;>
      simp_all [linuxNewReaderFile]
  · rintro ⟨e1, e2, e3⟩ h
    cases e1 <;> cases e2 <;> cases e3 <;> simp_all [winNewReaderConsole]

/-- Claim C5 witness: a failing pipe creation leaves no reader returned (the
epoll descriptor is rolled back, the pipe was never created). -/
theorem C5_witness :
    (linuxNewReaderFile ⟨none, some 3, none, none⟩).readerReturned = false :=
  (C5_construction_rollback_amended.1 ⟨none, some 3, none, none⟩ (by decide)).1

/-- Claim C8: a transient `EINTR` from the epoll wait syscall makes the wait
loop retry with the next outcome, and no result the loop ever returns is the
`EINTR` error — the interruption is never surfaced to `Read`'s caller. -/
theorem C8_eintr_retried_never_surfaced :
    (∀ (fileFd pipeFd : Int) (rest : List EpollWaitOutcome),
      epollWaitLoop fileFd pipeFd (.fail EINTR :: rest) =
        epollWaitLoop fileFd pipeFd rest) ∧
    (∀ (fileFd pipeFd : Int) (l : List EpollWaitOutcome) (e : Err),
      epollWaitLoop fileFd pipeFd l = some (some e) → e.is (.sys EINTR) = false) := by
  constructor
  · intro f p rest
    simp [epollWaitLoop]
  · intro f p l
    induction l with
    | nil => intro e h; simp [epollWaitLoop] at h
    | cons hd tl ih =>
      intro e h
      cases hd with
      | fail c =>
        by_cases hc : c = EINTR
        · subst hc
          rw [show epollWaitLoop f p (.fail EINTR :: tl) = epollWaitLoop f p tl from by
            simp [epollWaitLoop]] at h
          exact ih e h
        · simp only [epollWaitLoop, if_neg hc, Option.some.injEq] at h
          subst h
          simp [Err.is, hc]
      | ready fd =>
        by_cases h1 : fd = f
        · simp [epollWaitLoop, h1] at h
        · by_cases h2 : fd = p
          · simp only [epollWaitLoop, if_neg h1, if_pos h2, Option.some.injEq] at h
            subst h
            simp [Err.is]
          · simp only [epollWaitLoop, if_neg h1, if_neg h2, Option.some.injEq] at h
            subst h
            simp [Err.is]

/-- Claim C8 witness: a leading `EINTR` is consumed by the retry, and the
error produced by a subsequent genuine failure (errno 9) does not match
`EINTR` under `errors.Is`. -/
theorem C8_witness :
    epollWaitLoop 3 5 [.fail EINTR, .fail 9] = epollWaitLoop 3 5 [.fail 9] ∧
    (Err.wrapped "kevent" (.sys 9)).is (.sys EINTR) = false :=
  ⟨C8_eintr_retried_never_surfaced.1 3 5 [.fail 9],
   C8_eintr_retried_never_surfaced.2 3 5 [.fail 9] _ (by decide)⟩

/-- Claim C9: when `GetOverlappedResult` fails, `readAsync` returns (with a
nil error) without draining the token it posted into the single-slot
rendezvous channel, so the slot stays occupied, and a subsequent `Cancel`
finds the slot full: its post times out and `Cancel` returns false without
calling `SetEvent`. -/
theorem C9_overlapped_failure_leaves_token (env : ReadAsyncEnv) (m : CancelMixin)
    (se : Option SysErr) (hce : env.createEventErr = none)
    (hrf : env.readFileErr = none ∨ env.readFileErr = some ERROR_IO_PENDING)
    (hov : env.overlappedErr.isSome = true) :
    readAsync false env = some ⟨true, env.overlappedN, none, true⟩ ∧
    winCancel m true se = ⟨⟨true⟩, false, false, true⟩ := by
  obtain ⟨ce, rf, n1, ov, n2⟩ := env
  simp only at hce hov
  subst hce
  obtain ⟨v, hv⟩ := Option.isSome_iff_exists.mp hov
  subst hv
  constructor
  · rcases hrf with h | h <;> simp only at h <;> subst h <;>
      simp [readAsync, readAsyncAfterIssue, ERROR_IO_PENDING]
  · rfl

/-- Claim C9 witness: a concrete failing completion wait leaves the token in
the slot and a subsequent `Cancel` returns false. -/
theorem C9_witness :
    readAsync false ⟨none, none, 1, some 31, 0⟩ = some ⟨true, 0, none, true⟩ ∧
    winCancel ⟨true⟩ true none = ⟨⟨true⟩, false, false, true⟩ :=
  C9_overlapped_failure_leaves_token ⟨none, none, 1, some 31, 0⟩ ⟨true⟩ none rfl
    (Or.inl rfl) rfl

/-- Claim C10: when the readiness wait observes the cancellation (the wakeup
pipe is the ready descriptor) but draining the pending byte from the pipe
fails, `Read` returns 0 and the wrapped "reading cancel signal" error — which
does not match the `ErrCanceled` sentinel under `errors.Is` — even though a
cancellation occurred. -/
theorem C10_drain_failure_masks_cancellation (fileFd pipeFd : Int) (m : CancelMixin)
    (env : EpollReadEnv) (re : SysErr) (hm : m.isCanceled = false)
    (hne : pipeFd ≠ fileFd) (hw : env.waitOutcomes = [.ready pipeFd])
    (hd : env.drainErr = some re) :
    epollRead m fileFd pipeFd env =
      some ⟨0, some (.wrapped "reading cancel signal" (.sys re)), false, true⟩ ∧
    (Err.wrapped "reading cancel signal" (.sys re)).is .canceled = false := by
  constructor
  · simp [epollRead, hm, hw, hd, epollWaitLoop, hne, Err.is]
  · simp [Err.is]

/-- Claim C10 witness: with the wakeup pipe ready and the drain failing with
errno 9, `Read` returns the wrapped error rather than the sentinel. -/
theorem C10_witness :
    epollRead ⟨false⟩ 3 5 ⟨[.ready 5], some 9, 7, none⟩ =
      some ⟨0, some (.wrapped "reading cancel signal" (.sys 9)), false, true⟩ :=
  (C10_drain_failure_masks_cancellation 3 5 ⟨false⟩ ⟨[.ready 5], some 9, 7, none⟩ 9 rfl
    (by decide) rfl rfl).1

end CancelReader
